import Mathlib

/-!
Verification of the water-quality evaluation core of the fish-pond
monitoring dashboard (src/app.py).  The core consists of the constant
range table (app.py lines 138-143), the classifier check_status
(lines 146-160), the per-parameter status mapping (line 162), the
aggregate status counts (lines 176-177) and the overall verdict
(lines 236-239).

Modelling choices:
  - Parameters are the Python string keys; values are embedded as exact
    rationals (the decimal literals of the source are exact in both).
  - The Python KeyError raised by the dict lookup on an unconfigured
    parameter is modelled by Option: check_status returns none exactly
    when the lookup would raise, and evaluate returns none when any
    entry of the reading fails (the dict comprehension aborts, so no
    partial result is produced).
  - A Reading is an association list (a Python dict preserves insertion
    order; its keys are unique).
-/

/-- Status labels produced by the classifier (the five string literals
of app.py). -/
inductive Status where
  | Safe
  | Low
  | High
  | Risky
  | Unsafe
deriving DecidableEq

/-- Safe range definitions, app.py lines 138-143: a constant lookup
table from parameter name to the (low, high) pair. -/
def safe_ranges (param : String) : Option (ℚ × ℚ) :=
  if param = "Temperature" then some (25, 30)
  else if param = "Dissolved Oxygen" then some (5, 10)
  else if param = "pH" then some (6.5, 8.5)
  else if param = "Ammonia" then some (0, 0.05)
  else none

/-- Classifier, app.py lines 146-160.  The dict lookup of line 147 is
the Option match; for Ammonia the 0.1 literal is the one of line 151. -/
def check_status (param : String) (value : ℚ) : Option Status :=
  match safe_ranges param with
  | none => none
  | some (low, high) =>
    if param = "Ammonia" then
      if value ≤ high then some Status.Safe
      else if value ≤ 0.1 then some Status.Risky
      else some Status.Unsafe
    else if value < low then some Status.Low
    else if value > high then some Status.High
    else some Status.Safe

/-- One farmer-submitted reading: parameter names with their measured
values, in insertion order. -/
abbrev Reading := List (String × ℚ)

/-- Evaluates every element of a list with a fallible function,
failing as a whole when any single element fails; this is how a Python
comprehension behaves when its body can raise. -/
def mapOption {α β : Type} (f : α → Option β) : List α → Option (List β)
  | [] => some []
  | a :: l => (f a).bind fun b => (mapOption f l).map fun bs => b :: bs

/-- Body of the status comprehension of app.py line 162 for one
(parameter, value) entry. -/
def classifyEntry (p : String × ℚ) : Option (String × Status) :=
  (check_status p.1 p.2).map fun s => (p.1, s)

/-- Number of parameters classified with a given status; this is the
count that value_counts of app.py line 176 reports for that status. -/
def countStatus (sts : List (String × Status)) (s : Status) : Nat :=
  sts.countP fun p => decide (p.2 = s)

/-- Output of one evaluation: per-parameter status table, aggregate
counts per status, and the overall pass/fail verdict. -/
structure EvaluationResult where
  status : List (String × Status)
  counts : Status → Nat
  verdict : Bool

/-- The evaluation pass of app.py: the status dict comprehension of
line 162, the status counts of lines 176-177 and the verdict of line
236 (all labels equal to Safe). -/
def evaluate (r : Reading) : Option EvaluationResult :=
  match mapOption classifyEntry r with
  | none => none
  | some sts => some ⟨sts, countStatus sts, sts.all fun p => decide (p.2 = Status.Safe)⟩

/-- Scenario reading of the spec: all four parameters within range. -/
def reading1 : Reading :=
  [("Temperature", 27), ("Dissolved Oxygen", 7), ("pH", 7.2), ("Ammonia", 0.02)]

/-- Statuses of reading1 under the classifier. -/
def statuses1 : List (String × Status) :=
  [("Temperature", Status.Safe), ("Dissolved Oxygen", Status.Safe),
   ("pH", Status.Safe), ("Ammonia", Status.Safe)]

/-- Result of evaluating reading1. -/
def result1 : EvaluationResult :=
  ⟨statuses1, countStatus statuses1, true⟩

/-- The classifier on Ammonia reduces to the three-tier conditional of
app.py lines 148-154 with the table bound 0.05 and the literal 0.1. -/
theorem check_status_ammonia (v : ℚ) :
    check_status "Ammonia" v =
      if v ≤ 0.05 then some Status.Safe
      else if v ≤ 0.1 then some Status.Risky
      else some Status.Unsafe := rfl

/-- The classifier on a configured non-Ammonia parameter reduces to
the low/high conditional of app.py lines 155-160. -/
theorem check_status_std (param : String) (low high : ℚ)
    (hp : ¬param = "Ammonia") (hs : safe_ranges param = some (low, high)) (v : ℚ) :
    check_status param v =
      if v < low then some Status.Low
      else if v > high then some Status.High
      else some Status.Safe := by
  unfold check_status
  rw [hs]
  simp [hp]

/-- The classifier fails (Python KeyError on line 147) exactly on
parameters outside the range table. -/
theorem check_status_unconfigured (param : String) (v : ℚ)
    (h : safe_ranges param = none) : check_status param v = none := by
  unfold check_status
  rw [h]

/-- A fallible map over a list fails as soon as one element fails. -/
theorem mapOption_eq_none_of_mem {α β : Type} (f : α → Option β) {a : α}
    {l : List α} (hmem : a ∈ l) (hfa : f a = none) : mapOption f l = none := by
  induction l with
  | nil => cases hmem
  | cons b l ih =>
    rcases List.mem_cons.mp hmem with rfl | hmem'
    · simp [mapOption, hfa]
    · cases hfb : f b <;> simp [mapOption, hfb, ih hmem']

/-- Unfolding evaluate when some entry of the reading fails. -/
theorem evaluate_eq_none {r : Reading}
    (h : mapOption classifyEntry r = none) : evaluate r = none := by
  simp [evaluate, h]

/-- Unfolding evaluate when the whole reading classifies. -/
theorem evaluate_eq_some {r : Reading} {sts : List (String × Status)}
    (h : mapOption classifyEntry r = some sts) :
    evaluate r = some ⟨sts, countStatus sts, sts.all fun p => decide (p.2 = Status.Safe)⟩ := by
  simp [evaluate, h]

/-- Inversion for a successful evaluation: the three fields of the
result are the comprehension output, its counts and its verdict. -/
theorem evaluate_inv {r : Reading} {e : EvaluationResult} (h : evaluate r = some e) :
    ∃ sts, mapOption classifyEntry r = some sts ∧ e.status = sts ∧
      e.counts = countStatus sts ∧
      e.verdict = sts.all fun p => decide (p.2 = Status.Safe) := by
  cases hm : mapOption classifyEntry r with
  | none => rw [evaluate_eq_none hm] at h; cases h
  | some sts =>
    rw [evaluate_eq_some hm] at h
    refine ⟨sts, rfl, ?_, ?_, ?_⟩ <;> rw [← Option.some_inj.mp h]


/-- A successful classifyEntry keeps the parameter name and carries
the classifier output. -/
theorem classifyEntry_some {p : String × ℚ} {q : String × Status}
    (h : classifyEntry p = some q) :
    q.1 = p.1 ∧ check_status p.1 p.2 = some q.2 := by
  unfold classifyEntry at h
  cases hcs : check_status p.1 p.2 with
  | none => rw [hcs] at h; simp at h
  | some s =>
    rw [hcs] at h
    simp only [Option.map_some', Option.some_inj] at h
    subst h
    exact ⟨rfl, rfl⟩

/-- The comprehension output lists the keys of the reading, in order. -/
theorem mapOption_classifyEntry_keys :
    ∀ {r : Reading} {sts : List (String × Status)},
      mapOption classifyEntry r = some sts → sts.map Prod.fst = r.map Prod.fst := by
  intro r
  induction r with
  | nil =>
    intro sts h
    simp only [mapOption, Option.some_inj] at h
    subst h
    rfl
  | cons a r ih =>
    intro sts h
    cases hc : classifyEntry a with
    | none => simp [mapOption, hc] at h
    | some q =>
      cases hm : mapOption classifyEntry r with
      | none => simp [mapOption, hc, hm] at h
      | some l =>
        simp only [mapOption, hc, hm, Option.some_bind, Option.map_some',
          Option.some_inj] at h
        subst h
        obtain ⟨hq1, _⟩ := classifyEntry_some hc
        simp [List.map_cons, ih hm, hq1]

/-- The count of a status in the comprehension output equals the
number of reading entries classified with that status. -/
theorem countStatus_mapOption :
    ∀ {r : Reading} {sts : List (String × Status)},
      mapOption classifyEntry r = some sts → ∀ s : Status,
      countStatus sts s = r.countP fun p => decide (check_status p.1 p.2 = some s) := by
  intro r
  induction r with
  | nil =>
    intro sts h s
    simp only [mapOption, Option.some_inj] at h
    subst h
    rfl
  | cons a r ih =>
    intro sts h s
    cases hc : classifyEntry a with
    | none => simp [mapOption, hc] at h
    | some q =>
      cases hm : mapOption classifyEntry r with
      | none => simp [mapOption, hc, hm] at h
      | some l =>
        simp only [mapOption, hc, hm, Option.some_bind, Option.map_some',
          Option.some_inj] at h
        subst h
        obtain ⟨hq1, hq2⟩ := classifyEntry_some hc
        simp only [countStatus, List.countP_cons] at *
        rw [ih hm s, hq2]
        simp [Option.some_inj]

/-- Permuting the input of a fallible map either fails on both sides
or yields outputs that are permutations of each other. -/
theorem mapOption_perm {α β : Type} (f : α → Option β) {l₁ l₂ : List α}
    (h : l₁.Perm l₂) :
    (mapOption f l₁ = none ∧ mapOption f l₂ = none) ∨
    ∃ bs₁ bs₂, mapOption f l₁ = some bs₁ ∧ mapOption f l₂ = some bs₂ ∧
      bs₁.Perm bs₂ := by
  induction h with
  | nil => exact Or.inr ⟨[], [], rfl, rfl, List.Perm.nil⟩
  | cons a h ih =>
    cases hfa : f a with
    | none => exact Or.inl ⟨by simp [mapOption, hfa], by simp [mapOption, hfa]⟩
    | some b =>
      rcases ih with ⟨h1, h2⟩ | ⟨bs₁, bs₂, e1, e2, hp⟩
      · exact Or.inl ⟨by simp [mapOption, hfa, h1], by simp [mapOption, hfa, h2]⟩
      · exact Or.inr ⟨b :: bs₁, b :: bs₂, by simp [mapOption, hfa, e1],
          by simp [mapOption, hfa, e2], hp.cons b⟩
  | swap x y l =>
    cases hfx : f x with
    | none =>
      refine Or.inl ⟨?_, by simp [mapOption, hfx]⟩
      cases hfy : f y <;> simp [mapOption, hfx, hfy]
    | some bX =>
      cases hfy : f y with
      | none =>
        exact Or.inl ⟨by simp [mapOption, hfy], by simp [mapOption, hfx, hfy]⟩
      | some bY =>
        cases hml : mapOption f l with
        | none =>
          exact Or.inl ⟨by simp [mapOption, hfx, hfy, hml],
            by simp [mapOption, hfx, hfy, hml]⟩
        | some bs =>
          exact Or.inr ⟨bY :: bX :: bs, bX :: bY :: bs,
            by simp [mapOption, hfx, hfy, hml],
            by simp [mapOption, hfx, hfy, hml], List.Perm.swap bX bY bs⟩
  | trans h₁ h₂ ih₁ ih₂ =>
    rcases ih₁ with ⟨a1, a2⟩ | ⟨bs₁, bs₂, e1, e2, p12⟩
    · rcases ih₂ with ⟨b1, b2⟩ | ⟨cs₁, cs₂, f1, f2, p23⟩
      · exact Or.inl ⟨a1, b2⟩
      · rw [a2] at f1; cases f1
    · rcases ih₂ with ⟨b1, b2⟩ | ⟨cs₁, cs₂, f1, f2, p23⟩
      · rw [b1] at e2; cases e2
      · rw [e2] at f1
        obtain rfl := Option.some_inj.mp f1
        exact Or.inr ⟨bs₁, cs₂, e1, f2, p12.trans p23⟩

/-- C1: for the parameter Ammonia, classification returns Safe for
every value v ≤ 0.05, Risky for every 0.05 < v ≤ 0.1 and Unsafe for
every v > 0.1; the range table holds (0, 0.05) for Ammonia, so the
0.1 second threshold is a classifier-level constant that is not taken
from the table. -/
theorem ammonia_classification :
    safe_ranges "Ammonia" = some (0, 0.05) ∧
    ∀ v : ℚ,
      (v ≤ 0.05 → check_status "Ammonia" v = some Status.Safe) ∧
      (0.05 < v → v ≤ 0.1 → check_status "Ammonia" v = some Status.Risky) ∧
      (0.1 < v → check_status "Ammonia" v = some Status.Unsafe) := by
  refine ⟨rfl, fun v => ⟨fun h => ?_, fun h1 h2 => ?_, fun h => ?_⟩⟩ <;>
    rw [check_status_ammonia]
  · rw [if_pos h]
  · rw [if_neg (not_le.mpr h1), if_pos h2]
  · rw [if_neg (not_le.mpr (lt_trans (by norm_num) h)), if_neg (not_le.mpr h)]

/-- Witness for C1 at one concrete value in each tier, including both
boundaries. -/
theorem ammonia_classification_witness :
    check_status "Ammonia" 0.05 = some Status.Safe ∧
    check_status "Ammonia" 0.1 = some Status.Risky ∧
    check_status "Ammonia" 0.2 = some Status.Unsafe :=
  ⟨(ammonia_classification.2 0.05).1 (by norm_num),
   (ammonia_classification.2 0.1).2.1 (by norm_num) (by norm_num),
   (ammonia_classification.2 0.2).2.2 (by norm_num)⟩

/-- C2: Temperature, Dissolved Oxygen and pH carry the configured
bounds (25, 30), (5, 10) and (6.5, 8.5), and each classifies as Low
strictly below its low bound, High strictly above its high bound and
Safe on the closed interval between them (inclusive bounds). -/
theorem standard_params_inclusive :
    safe_ranges "Temperature" = some (25, 30) ∧
    safe_ranges "Dissolved Oxygen" = some (5, 10) ∧
    safe_ranges "pH" = some (6.5, 8.5) ∧
    (∀ v : ℚ,
      (v < 25 → check_status "Temperature" v = some Status.Low) ∧
      (30 < v → check_status "Temperature" v = some Status.High) ∧
      (25 ≤ v → v ≤ 30 → check_status "Temperature" v = some Status.Safe)) ∧
    (∀ v : ℚ,
      (v < 5 → check_status "Dissolved Oxygen" v = some Status.Low) ∧
      (10 < v → check_status "Dissolved Oxygen" v = some Status.High) ∧
      (5 ≤ v → v ≤ 10 → check_status "Dissolved Oxygen" v = some Status.Safe)) ∧
    ∀ v : ℚ,
      (v < 6.5 → check_status "pH" v = some Status.Low) ∧
      (8.5 < v → check_status "pH" v = some Status.High) ∧
      (6.5 ≤ v → v ≤ 8.5 → check_status "pH" v = some Status.Safe) := by
  refine ⟨rfl, rfl, rfl, ?_, ?_, ?_⟩
  · intro v
    have hstd := check_status_std "Temperature" 25 30 (by simp) rfl v
    refine ⟨fun h => ?_, fun h => ?_, fun h1 h2 => ?_⟩ <;> rw [hstd]
    · rw [if_pos h]
    · rw [if_neg (not_lt.mpr (le_of_lt (lt_of_le_of_lt (by norm_num) h))),
        if_pos h]
    · rw [if_neg (not_lt.mpr h1), if_neg (not_lt.mpr h2)]
  · intro v
    have hstd := check_status_std "Dissolved Oxygen" 5 10 (by simp) rfl v
    refine ⟨fun h => ?_, fun h => ?_, fun h1 h2 => ?_⟩ <;> rw [hstd]
    · rw [if_pos h]
    · rw [if_neg (not_lt.mpr (le_of_lt (lt_of_le_of_lt (by norm_num) h))),
        if_pos h]
    · rw [if_neg (not_lt.mpr h1), if_neg (not_lt.mpr h2)]
  · intro v
    have hstd := check_status_std "pH" 6.5 8.5 (by simp) rfl v
    refine ⟨fun h => ?_, fun h => ?_, fun h1 h2 => ?_⟩ <;> rw [hstd]
    · rw [if_pos h]
    · rw [if_neg (not_lt.mpr (le_of_lt (lt_of_le_of_lt (by norm_num) h))),
        if_pos h]
    · rw [if_neg (not_lt.mpr h1), if_neg (not_lt.mpr h2)]

/-- Witness for C2 at both boundary values of each parameter. -/
theorem standard_params_inclusive_witness :
    check_status "Temperature" 25 = some Status.Safe ∧
    check_status "Temperature" 30 = some Status.Safe ∧
    check_status "Dissolved Oxygen" 5 = some Status.Safe ∧
    check_status "Dissolved Oxygen" 10 = some Status.Safe ∧
    check_status "pH" 6.5 = some Status.Safe ∧
    check_status "pH" 8.5 = some Status.Safe :=
  ⟨(standard_params_inclusive.2.2.2.1 25).2.2 (by norm_num) (by norm_num),
   (standard_params_inclusive.2.2.2.1 30).2.2 (by norm_num) (by norm_num),
   (standard_params_inclusive.2.2.2.2.1 5).2.2 (by norm_num) (by norm_num),
   (standard_params_inclusive.2.2.2.2.1 10).2.2 (by norm_num) (by norm_num),
   (standard_params_inclusive.2.2.2.2.2 6.5).2.2 (by norm_num) (by norm_num),
   (standard_params_inclusive.2.2.2.2.2 8.5).2.2 (by norm_num) (by norm_num)⟩

/-- C9: the status vocabulary is partitioned by parameter: Ammonia
never classifies as Low or High (every value at most 0.05, negative
values included, is Safe), and Temperature, Dissolved Oxygen and pH
never classify as Risky or Unsafe. -/
theorem status_partition :
    (∀ v : ℚ,
      check_status "Ammonia" v ≠ some Status.Low ∧
      check_status "Ammonia" v ≠ some Status.High ∧
      (v ≤ 0.05 → check_status "Ammonia" v = some Status.Safe)) ∧
    (∀ v : ℚ,
      check_status "Temperature" v ≠ some Status.Risky ∧
      check_status "Temperature" v ≠ some Status.Unsafe) ∧
    (∀ v : ℚ,
      check_status "Dissolved Oxygen" v ≠ some Status.Risky ∧
      check_status "Dissolved Oxygen" v ≠ some Status.Unsafe) ∧
    ∀ v : ℚ,
      check_status "pH" v ≠ some Status.Risky ∧
      check_status "pH" v ≠ some Status.Unsafe := by
  refine ⟨fun v => ⟨?_, ?_, fun h => ?_⟩, fun v => ?_, fun v => ?_, fun v => ?_⟩
  · rw [check_status_ammonia]; split_ifs <;> simp
  · rw [check_status_ammonia]; split_ifs <;> simp
  · rw [check_status_ammonia, if_pos h]
  · rw [check_status_std "Temperature" 25 30 (by simp) rfl v]
    split_ifs <;> simp
  · rw [check_status_std "Dissolved Oxygen" 5 10 (by simp) rfl v]
    split_ifs <;> simp
  · rw [check_status_std "pH" 6.5 8.5 (by simp) rfl v]
    split_ifs <;> simp

/-- Witness for C9: a negative Ammonia value still classifies Safe. -/
theorem status_partition_witness :
    check_status "Ammonia" (-1) = some Status.Safe :=
  (status_partition.1 (-1)).2.2 (by norm_num)

/-- C3: for every reading that evaluates, the overall verdict is true
if and only if every per-parameter status in the result mapping equals
Safe (so any single non-Safe status makes it false). -/
theorem verdict_iff_all_safe (r : Reading) (e : EvaluationResult)
    (h : evaluate r = some e) :
    e.verdict = true ↔ ∀ x ∈ e.status, x.2 = Status.Safe := by
  obtain ⟨sts, hm, hst, hc, hv⟩ := evaluate_inv h
  rw [hv, hst]
  simp [List.all_eq_true]

/-- Witness for C3 on the all-Safe scenario reading. -/
theorem verdict_iff_all_safe_witness :
    result1.verdict = true ↔ ∀ x ∈ result1.status, x.2 = Status.Safe :=
  verdict_iff_all_safe reading1 result1 (by with_unfolding_all rfl)

/-- C4: a reading containing a parameter with no entry in the range
table makes the whole evaluation fail (the KeyError of app.py line 147
aborts the comprehension of line 162), producing no partial result. -/
theorem unconfigured_fails (r : Reading) (p : String) (v : ℚ)
    (hmem : (p, v) ∈ r) (hcfg : safe_ranges p = none) : evaluate r = none := by
  apply evaluate_eq_none
  apply mapOption_eq_none_of_mem classifyEntry hmem
  have hcs : check_status p v = none := check_status_unconfigured p v hcfg
  simp [classifyEntry, hcs]

/-- Witness for C4: a reading with the unconfigured parameter Salinity
evaluates to no result at all. -/
theorem unconfigured_fails_witness : evaluate [("Salinity", (3 : ℚ))] = none :=
  unconfigured_fails _ "Salinity" 3 (List.mem_singleton.mpr rfl) rfl

/-- C5: a successful evaluation reports exactly one status per
parameter of the input reading: the key list of the status mapping is
the key list of the reading, with no additions and no omissions. -/
theorem status_keys_exact (r : Reading) (e : EvaluationResult)
    (h : evaluate r = some e) : e.status.map Prod.fst = r.map Prod.fst := by
  obtain ⟨sts, hm, hst, hc, hv⟩ := evaluate_inv h
  rw [hst]
  exact mapOption_classifyEntry_keys hm

/-- Witness for C5 on the scenario reading. -/
theorem status_keys_exact_witness :
    result1.status.map Prod.fst = reading1.map Prod.fst :=
  status_keys_exact reading1 result1 (by with_unfolding_all rfl)

/-- C6: permuting the key order of a reading leaves the evaluation
content unchanged: either both orders fail, or both succeed with the
same per-parameter status mapping (same entries), the same aggregate
counts for every status, and the same verdict. -/
theorem evaluate_perm_invariant (r r' : Reading) (h : r.Perm r') :
    (evaluate r = none ∧ evaluate r' = none) ∨
    ∃ e e', evaluate r = some e ∧ evaluate r' = some e' ∧
      (∀ q : String × Status, q ∈ e.status ↔ q ∈ e'.status) ∧
      (∀ s, e.counts s = e'.counts s) ∧ e.verdict = e'.verdict := by
  rcases mapOption_perm classifyEntry h with ⟨h1, h2⟩ | ⟨bs₁, bs₂, e1, e2, hp⟩
  · exact Or.inl ⟨evaluate_eq_none h1, evaluate_eq_none h2⟩
  · refine Or.inr ⟨_, _, evaluate_eq_some e1, evaluate_eq_some e2, ?_, ?_, ?_⟩
    · exact fun q => hp.mem_iff
    · exact fun s => hp.countP_eq _
    · show (bs₁.all fun p => decide (p.2 = Status.Safe)) =
        (bs₂.all fun p => decide (p.2 = Status.Safe))
      rw [Bool.eq_iff_iff]
      simp only [List.all_eq_true]
      exact ⟨fun ha x hx => ha x (hp.mem_iff.mpr hx),
        fun ha x hx => ha x (hp.mem_iff.mp hx)⟩

/-- Witness for C6 on a two-parameter reading and its reversal. -/
theorem evaluate_perm_invariant_witness :
    (evaluate [("Temperature", (27 : ℚ)), ("pH", 7.2)] = none ∧
     evaluate [("pH", (7.2 : ℚ)), ("Temperature", 27)] = none) ∨
    ∃ e e', evaluate [("Temperature", (27 : ℚ)), ("pH", 7.2)] = some e ∧
      evaluate [("pH", (7.2 : ℚ)), ("Temperature", 27)] = some e' ∧
      (∀ q : String × Status, q ∈ e.status ↔ q ∈ e'.status) ∧
      (∀ s, e.counts s = e'.counts s) ∧ e.verdict = e'.verdict :=
  evaluate_perm_invariant _ _ (List.Perm.swap ("pH", 7.2) ("Temperature", 27) [])

/-- C7: for every reading that evaluates, the aggregate count of each
status equals the number of reading entries whose classification is
that status. -/
theorem counts_correct (r : Reading) (e : EvaluationResult)
    (h : evaluate r = some e) (s : Status) :
    e.counts s = r.countP fun p => decide (check_status p.1 p.2 = some s) := by
  obtain ⟨sts, hm, hst, hc, hv⟩ := evaluate_inv h
  rw [hc]
  exact countStatus_mapOption hm s

/-- Witness for C7 on the scenario reading at the Safe status. -/
theorem counts_correct_witness :
    result1.counts Status.Safe =
      reading1.countP fun p => decide (check_status p.1 p.2 = some Status.Safe) :=
  counts_correct reading1 result1 (by with_unfolding_all rfl) Status.Safe

/-- C8: classification and evaluation are deterministic: the
classifier gives one answer for a (parameter, value) pair, and two
evaluations of the same reading produce identical results. -/
theorem evaluate_deterministic (p : String) (v : ℚ) (r : Reading)
    (e₁ e₂ : EvaluationResult) (h₁ : evaluate r = some e₁)
    (h₂ : evaluate r = some e₂) :
    check_status p v = check_status p v ∧ e₁ = e₂ := by
  refine ⟨rfl, ?_⟩
  rw [h₁] at h₂
  exact Option.some_inj.mp h₂

/-- Witness for C8 on the scenario reading. -/
theorem evaluate_deterministic_witness :
    check_status "pH" 7 = check_status "pH" 7 ∧ result1 = result1 :=
  evaluate_deterministic "pH" 7 reading1 result1 result1
    (by with_unfolding_all rfl) (by with_unfolding_all rfl)

/-- C10: the empty reading evaluates successfully to an empty status
mapping, all-zero aggregate counts, and a vacuously true verdict. -/
theorem evaluate_empty :
    ∃ e, evaluate ([] : Reading) = some e ∧ e.status = [] ∧
      (∀ s, e.counts s = 0) ∧ e.verdict = true :=
  ⟨⟨[], countStatus [], true⟩, rfl, rfl, fun _ => rfl, rfl⟩
